import Mathlib

/-!
Verification of the model-server runner in
`tfx/components/infra_validator/model_server_runners/local_docker_runner.py`.

The Python module drives one docker container through its lifecycle:
client construction, start, a reload-polling wait loop, endpoint
reporting and stop.  We embed the functions shallowly:

* machine state observed from the engine becomes an explicit trace of
  reload observations;
* wall-clock time is a natural number; the only way it advances inside
  the wait loop is the fixed one-second sleep taken on status
  `created`, matching the source's `time.sleep(_POLLING_INTERVAL_SEC)`;
* Python exceptions become explicit result constructors;
* Python `dict.get` on the port mapping becomes association-list lookup
  returning an `Option`.
-/

/-- `_POLLING_INTERVAL_SEC = 1` from the source. -/
def pollingIntervalSec : Nat := 1

/-- One host-binding record of a docker port mapping.  In the source it
is a dictionary that may or may not carry the `HostIp` and `HostPort`
keys; `dict.get` yields `None` for a missing key, hence `Option`. -/
structure HostBinding where
  hostIp : Option String
  hostPort : Option String
deriving Repr, DecidableEq

/-- A docker container port mapping: keys such as `8500/tcp` each bound
to a list of host-binding records.  Modelled as an association list. -/
abbrev PortMap : Type := List (String × List HostBinding)

/-- Python `ports.get(key)`: `none` when the key is absent. -/
def lookupPorts (ports : PortMap) (key : String) : Option (List HostBinding) :=
  List.lookup key ports

/-- The key the source builds for a container port: the f-string
interpolation, i.e. `str(container_port) + "/tcp"`. -/
def portKey (containerPort : Nat) : String :=
  toString containerPort ++ "/tcp"

/-- The payload of the `ValueError` raised by `_find_host_port`: its
message interpolates the requested container port and the full port
mapping. -/
structure PortNotFound where
  containerPort : Nat
  ports : PortMap
deriving Repr, DecidableEq

/-- Shallow embedding of `_find_host_port(ports, container_port)`.

The source reads

  if mappings := ports.get(f'(container_port)/tcp'):
      return mappings[0].get('HostPort')
  else:
      raise ValueError(...)

The walrus condition is Python truthiness: both a missing key (`None`)
and an empty list fall to the `else` branch.  `mappings[0].get('HostPort')`
is `Option`-valued because the first record may lack the `HostPort` key. -/
def find_host_port (ports : PortMap) (container_port : Nat) :
    Except PortNotFound (Option String) :=
  match lookupPorts ports (portKey container_port) with
  | some (m :: _) => Except.ok m.hostPort
  | some [] => Except.error ⟨container_port, ports⟩
  | none => Except.error ⟨container_port, ports⟩

/-- Python `f'localhost:(host_port)'` where `host_port : Optional[str]`:
`str` of `None` is the four-letter string `None`; a string interpolates
verbatim. -/
def pyStr (s : Option String) : String :=
  match s with
  | none => "None"
  | some v => v

/-- One observation the wait loop obtains from the engine: either
`container.reload()` raises docker `NotFound`, or it refreshes the
container, after which `container.status` and `container.ports` are
read. -/
inductive EngineEvent where
  | notFound
  | observed (status : String) (ports : PortMap)
deriving Repr, DecidableEq

/-- Outcome of `WaitUntilRunning`: normal return carrying the endpoint
that was stored, or one of the exceptions the source raises.
`engineHung` marks the off-model case in which the loop still has
deadline budget but the supplied observation trace is exhausted. -/
inductive WaitResult where
  | ok (endpoint : String)
  | jobAborted (message : String)
  | portNotFound (e : PortNotFound)
  | deadlineExceeded
  | engineHung
deriving Repr, DecidableEq

/-- The message of the `JobAborted` raised when reload says the
container no longer exists. -/
def containerNotFoundMsg : String :=
  "Container not found. Possibly removed after the job has been aborted."

/-- Shallow embedding of `LocalDockerRunner.WaitUntilRunning(deadline)`.

`containerPort` is `self._serving_binary.container_port`; `deadline`
and the current time are naturals standing for `time.time()` readings;
the trace lists the successive reload observations the engine would
answer with.  Faithful to the loop:

* the wall clock is checked before every reload;
* docker `NotFound` during reload raises `JobAborted`;
* status `created` sleeps one polling interval and retries;
* status `running` resolves the host port and stores
  `localhost:(host_port)` as the endpoint;
* any other status raises `JobAborted` with the status interpolated;
* falling out of the loop raises `DeadlineExceeded`.

The second component counts the reload calls made. -/
def WaitUntilRunning (containerPort deadline : Nat) :
    Nat → List EngineEvent → WaitResult × Nat
  | now, [] =>
      if now < deadline then (WaitResult.engineHung, 0)
      else (WaitResult.deadlineExceeded, 0)
  | now, EngineEvent.notFound :: _ =>
      if now < deadline then (WaitResult.jobAborted containerNotFoundMsg, 1)
      else (WaitResult.deadlineExceeded, 0)
  | now, EngineEvent.observed status ports :: rest =>
      if now < deadline then
        if status = "created" then
          let r := WaitUntilRunning containerPort deadline
            (now + pollingIntervalSec) rest
          (r.1, r.2 + 1)
        else if status = "running" then
          match find_host_port ports containerPort with
          | Except.ok hostPort =>
              (WaitResult.ok ("localhost:" ++ pyStr hostPort), 1)
          | Except.error e => (WaitResult.portNotFound e, 1)
        else
          (WaitResult.jobAborted
            ("Job has been aborted (container status=" ++ status ++ ")"), 1)
      else (WaitResult.deadlineExceeded, 0)

/-- `self._endpoint` after a call to `WaitUntilRunning`: the success
path assigns the endpoint; every raising path leaves it untouched. -/
def endpointAfterWait (r : WaitResult) (endpoint : Option String) :
    Option String :=
  match r with
  | WaitResult.ok ep => some ep
  | _ => endpoint

/-- Shallow embedding of `GetEndpoint`: asserts the endpoint was set
(the error is the assertion message), then returns it. -/
def GetEndpoint (endpoint : Option String) : Except String String :=
  match endpoint with
  | some e => Except.ok e
  | none =>
      Except.error
        "Endpoint is not yet created. You should call Start() first."

/-- The engine-level operations `Stop` can issue: the container stop
request and the client-connection close. -/
inductive EngineCall where
  | containerStop
  | clientClose
deriving Repr, DecidableEq

/-- Engine behaviour during a `Stop` call: `containerStopError` holds
the message of the docker error `container.stop()` raises, when it
raises one. -/
structure DockerEnv where
  containerStopError : Option String
deriving Repr, DecidableEq

/-- What one call to `Stop` did: the container handle after the call,
the engine calls issued in order, and the exception that escaped to the
caller, if any. -/
structure StopResult where
  post : Option Unit
  calls : List EngineCall
  raised : Option String
deriving Repr, DecidableEq

/-- Shallow embedding of `LocalDockerRunner.Stop`.

The source reads

  if self._container:
      logging.info(...)
      self._container.stop()
  self._docker.close()

Note what it does not do: it never clears `self._container`, and there
is no exception handler, so a docker error from `container.stop()`
escapes to the caller and skips `self._docker.close()`. -/
def Stop (container : Option Unit) (env : DockerEnv) : StopResult :=
  match container with
  | some c =>
      match env.containerStopError with
      | some e =>
          { post := some c, calls := [EngineCall.containerStop],
            raised := some e }
      | none =>
          { post := some c,
            calls := [EngineCall.containerStop, EngineCall.clientClose],
            raised := none }
  | none =>
      { post := none, calls := [EngineCall.clientClose], raised := none }

/-- The `LocalDockerConfig` message consumed by `_make_docker_client`.
Its proto3 scalar fields default to zero and the empty string when
unset. -/
structure LocalDockerConfig where
  client_timeout_seconds : Nat
  client_base_url : String
  client_api_version : String
deriving Repr, DecidableEq

/-- The keyword arguments `_make_docker_client` passes to the docker
client constructor; `none` means the key is left out of the `params`
dictionary so the adapter default applies. -/
structure DockerClientParams where
  timeout : Option Nat
  base_url : Option String
  version : Option String
deriving Repr, DecidableEq

/-- Shallow embedding of `_make_docker_client(config)`: each parameter
is added to the dictionary only when its field is truthy (nonzero
number, nonempty string). -/
def make_docker_client (config : LocalDockerConfig) : DockerClientParams :=
  { timeout :=
      if config.client_timeout_seconds ≠ 0 then
        some config.client_timeout_seconds
      else none,
    base_url :=
      if config.client_base_url ≠ "" then some config.client_base_url
      else none,
    version :=
      if config.client_api_version ≠ "" then some config.client_api_version
      else none }

/-- Replace the host IP of a binding record, keeping its host port. -/
def setBindingIp (ip : Option String) (b : HostBinding) : HostBinding :=
  ⟨ip, b.hostPort⟩

/-- Replace every host IP occurring in a port mapping. -/
def setPortsIp (ip : Option String) (ports : PortMap) : PortMap :=
  ports.map (fun kv => (kv.1, kv.2.map (setBindingIp ip)))

/-- Replace every host IP occurring in a reload observation. -/
def setEventIp (ip : Option String) : EngineEvent → EngineEvent
  | EngineEvent.notFound => EngineEvent.notFound
  | EngineEvent.observed s ports => EngineEvent.observed s (setPortsIp ip ports)

/-- Looking a key up in a port mapping whose host IPs were all rewritten
gives the rewritten image of the original lookup. -/
lemma lookupPorts_setPortsIp (ip : Option String) (ports : PortMap)
    (k : String) :
    lookupPorts (setPortsIp ip ports) k
      = (lookupPorts ports k).map (fun bs => bs.map (setBindingIp ip)) := by
  induction ports with
  | nil => rfl
  | cons kv rest ih =>
      obtain ⟨key, bs⟩ := kv
      by_cases h : k == key <;>
        simp [lookupPorts, setPortsIp, List.lookup, h] at ih ⊢
      exact ih

/-- Successful port resolution is unchanged when every host IP of the
mapping is rewritten: only the host-port field of the first binding
matters. -/
lemma find_host_port_setPortsIp_ok (ip : Option String) (ports : PortMap)
    (P : Nat) (v : Option String)
    (h : find_host_port ports P = Except.ok v) :
    find_host_port (setPortsIp ip ports) P = Except.ok v := by
  unfold find_host_port at h ⊢
  rw [lookupPorts_setPortsIp]
  rcases hl : lookupPorts ports (portKey P) with _ | bs
  · rw [hl] at h; exact absurd h (by simp)
  · rw [hl] at h
    cases bs with
    | nil => exact absurd h (by simp)
    | cons m ms => simpa [setBindingIp] using h

/-- Loop step: observing status created sleeps one interval, recurses,
and adds one to the reload count. -/
lemma wait_step_created (containerPort deadline now : Nat) (ports : PortMap)
    (rest : List EngineEvent) (hd : now < deadline) :
    WaitUntilRunning containerPort deadline now
        (EngineEvent.observed "created" ports :: rest)
      = ((WaitUntilRunning containerPort deadline
            (now + pollingIntervalSec) rest).1,
         (WaitUntilRunning containerPort deadline
            (now + pollingIntervalSec) rest).2 + 1) := by
  simp [WaitUntilRunning, hd]

/-- Loop step: observing status running resolves the host port and
returns, after exactly this one reload. -/
lemma wait_step_running (containerPort deadline now : Nat) (ports : PortMap)
    (rest : List EngineEvent) (hd : now < deadline) :
    WaitUntilRunning containerPort deadline now
        (EngineEvent.observed "running" ports :: rest)
      = (match find_host_port ports containerPort with
         | Except.ok hostPort =>
             (WaitResult.ok ("localhost:" ++ pyStr hostPort), 1)
         | Except.error e => (WaitResult.portNotFound e, 1)) := by
  simp [WaitUntilRunning, hd]

/-- Loop step: any status other than created and running aborts the job
at once, after exactly this one reload. -/
lemma wait_step_other (containerPort deadline now : Nat) (status : String)
    (ports : PortMap) (rest : List EngineEvent) (hd : now < deadline)
    (hc : status ≠ "created") (hr : status ≠ "running") :
    WaitUntilRunning containerPort deadline now
        (EngineEvent.observed status ports :: rest)
      = (WaitResult.jobAborted
          ("Job has been aborted (container status=" ++ status ++ ")"), 1) := by
  simp [WaitUntilRunning, hd, hc, hr]

/-- A normal return of the wait loop always carries an endpoint of the
shape localhost:suffix, and the run is insensitive to every host IP
recorded in the observations. -/
lemma wait_ok_ip_aux (containerPort deadline : Nat) (ip : Option String)
    (trace : List EngineEvent) :
    ∀ (now : Nat) (ep : String) (n : Nat),
      WaitUntilRunning containerPort deadline now trace
        = (WaitResult.ok ep, n) →
      (∃ s, ep = "localhost:" ++ s) ∧
      WaitUntilRunning containerPort deadline now (trace.map (setEventIp ip))
        = (WaitResult.ok ep, n) := by
  induction trace with
  | nil =>
      intro now ep n h
      by_cases hd : now < deadline <;> simp [WaitUntilRunning, hd] at h
  | cons e rest ih =>
      intro now ep n h
      cases e with
      | notFound =>
          by_cases hd : now < deadline <;>
            simp [WaitUntilRunning, hd] at h
      | observed status ports =>
          by_cases hd : now < deadline
          · by_cases hc : status = "created"
            · subst hc
              rw [wait_step_created containerPort deadline now ports rest hd]
                at h
              rcases hw : WaitUntilRunning containerPort deadline
                  (now + pollingIntervalSec) rest with ⟨r1, r2⟩
              rw [hw] at h
              simp only [Prod.mk.injEq] at h
              obtain ⟨h1, h2⟩ := h
              obtain ⟨hpre, hmap⟩ :=
                ih (now + pollingIntervalSec) ep r2 (by rw [hw, h1])
              refine ⟨hpre, ?_⟩
              simp only [List.map_cons, setEventIp]
              rw [wait_step_created containerPort deadline now
                (setPortsIp ip ports) (rest.map (setEventIp ip)) hd, hmap, h2]
            · by_cases hr : status = "running"
              · subst hr
                rw [wait_step_running containerPort deadline now ports rest hd]
                  at h
                rcases hf : find_host_port ports containerPort with e' | hp
                · rw [hf] at h; simp at h
                · rw [hf] at h
                  simp only [Prod.mk.injEq, WaitResult.ok.injEq] at h
                  obtain ⟨hep, hn⟩ := h
                  refine ⟨⟨pyStr hp, hep.symm⟩, ?_⟩
                  simp only [List.map_cons, setEventIp]
                  rw [wait_step_running containerPort deadline now
                    (setPortsIp ip ports) (rest.map (setEventIp ip)) hd,
                    find_host_port_setPortsIp_ok ip ports containerPort hp hf]
                  show (WaitResult.ok ("localhost:" ++ pyStr hp), 1)
                    = (WaitResult.ok ep, n)
                  rw [hep, hn]
              · rw [wait_step_other containerPort deadline now status ports
                  rest hd hc hr] at h
                simp at h
          · simp [WaitUntilRunning, hd] at h

/-- Claim C1, counterexample.  The claim says a second call to `Stop`
performs no additional engine call and does not fail.  On the code,
after a first successful `Stop` of a started runner the container
handle is still set, so the second call issues the container stop
request again, and if the engine errors on that second request the
error escapes to the caller. -/
theorem stop_twice_counterexample :
    EngineCall.containerStop ∈
      (Stop (Stop (some ()) ⟨none⟩).post ⟨none⟩).calls ∧
    (Stop (Stop (some ()) ⟨none⟩).post ⟨some "err"⟩).raised ≠ none := by
  decide

/-- Claim C1, amended.  `Stop` leaves the container handle unchanged,
so a second call to `Stop` behaves exactly like a first call on the
same state: in particular, on a runner whose container handle is set it
issues the container stop request again, and it fails exactly when that
engine call fails. -/
theorem stop_twice_repeats_engine_calls (container : Option Unit)
    (env1 env2 : DockerEnv) :
    (Stop container env1).post = container ∧
    Stop (Stop container env1).post env2 = Stop container env2 ∧
    EngineCall.containerStop ∈ (Stop (Stop (some ()) env1).post env2).calls := by
  obtain ⟨e1⟩ := env1
  obtain ⟨e2⟩ := env2
  cases container <;> cases e1 <;> cases e2 <;> simp [Stop]

/-- Claim C2, counterexample.  The claim says an engine-side stop
failure is swallowed and never propagated; on the code there is no
handler around the stop request, so the docker error reaches the
caller of `Stop`. -/
theorem stop_failure_counterexample :
    (Stop (some ()) ⟨some "500 Server Error"⟩).raised = some "500 Server Error" ∧
    ¬ (Stop (some ()) ⟨some "500 Server Error"⟩).raised = none := by
  decide

/-- Claim C2, amended.  When the container handle is set and the
engine-side stop request fails, the failure propagates to the caller of
`Stop` unchanged, and the client-connection close is never reached. -/
theorem stop_failure_propagates (c : Unit) (e : String) :
    Stop (some c) ⟨some e⟩
      = { post := some c, calls := [EngineCall.containerStop],
          raised := some e } := rfl

/-- Claim C3.  For every port mapping whose key for the requested
container port is bound to a non-empty list of host-binding records,
resolution returns the host port of the first record, whatever the
length of the list. -/
theorem find_host_port_first_binding (ports : PortMap) (P : Nat)
    (m : HostBinding) (ms : List HostBinding)
    (h : lookupPorts ports (portKey P) = some (m :: ms)) :
    find_host_port ports P = Except.ok m.hostPort := by
  simp [find_host_port, h]

/-- Claim C3, witness: a two-element binding list resolves to the host
port of its first record. -/
theorem find_host_port_first_binding_witness :
    find_host_port
        [("8500/tcp",
          [⟨some "0.0.0.0", some "32769"⟩, ⟨some "127.0.0.1", some "5"⟩])]
        8500
      = Except.ok (some "32769") :=
  find_host_port_first_binding _ 8500 ⟨some "0.0.0.0", some "32769"⟩
    [⟨some "127.0.0.1", some "5"⟩] (by decide)

/-- Claim C4.  When the key for the requested container port is absent
from the mapping or bound to an empty list, resolution fails with the
error carrying the requested port and the full mapping, and returns no
value. -/
theorem find_host_port_missing_errors (ports : PortMap) (P : Nat)
    (h : lookupPorts ports (portKey P) = none ∨
         lookupPorts ports (portKey P) = some []) :
    find_host_port ports P = Except.error ⟨P, ports⟩ := by
  rcases h with h | h <;> simp [find_host_port, h]

/-- Claim C4, witness: both failure shapes on concrete mappings. -/
theorem find_host_port_missing_errors_witness :
    find_host_port [] 8500 = Except.error ⟨8500, []⟩ ∧
    find_host_port [("8500/tcp", [])] 8500
      = Except.error ⟨8500, [("8500/tcp", [])]⟩ :=
  ⟨find_host_port_missing_errors [] 8500 (Or.inl (by decide)),
   find_host_port_missing_errors [("8500/tcp", [])] 8500 (Or.inr (by decide))⟩

/-- Claim C5.  If a reload made within the deadline observes one of the
statuses exited, dead, paused, restarting or removing, the wait fails
at once with a job-aborted error whose message interpolates that exact
status, and the rest of the trace is never consulted: the reload count
is one, counting only the observation itself. -/
theorem wait_bad_status_aborts (containerPort deadline now : Nat)
    (status : String) (ports : PortMap) (rest : List EngineEvent)
    (htime : now < deadline)
    (hstatus : status ∈ ["exited", "dead", "paused", "restarting", "removing"]) :
    WaitUntilRunning containerPort deadline now
        (EngineEvent.observed status ports :: rest)
      = (WaitResult.jobAborted
          ("Job has been aborted (container status=" ++ status ++ ")"), 1) := by
  fin_cases hstatus <;> simp [WaitUntilRunning, htime]

/-- Claim C5, witness: observing status dead aborts with the status in
the message after a single reload. -/
theorem wait_bad_status_aborts_witness :
    WaitUntilRunning 8500 10 0 [EngineEvent.observed "dead" []]
      = (WaitResult.jobAborted "Job has been aborted (container status=dead)", 1) :=
  wait_bad_status_aborts 8500 10 0 "dead" [] [] (by decide) (by decide)

/-- Claim C6.  With a deadline at or before the current time the wait
fails at once with the deadline-exceeded error and makes zero reload
calls, whatever observations the engine would have answered. -/
theorem wait_past_deadline (containerPort deadline now : Nat)
    (trace : List EngineEvent) (h : deadline ≤ now) :
    WaitUntilRunning containerPort deadline now trace
      = (WaitResult.deadlineExceeded, 0) := by
  have h' : ¬ now < deadline := Nat.not_lt.mpr h
  cases trace with
  | nil => simp [WaitUntilRunning, h']
  | cons e rest => cases e <;> simp [WaitUntilRunning, h']

/-- Claim C6, witness: a deadline two units in the past exceeds at once
with zero reloads. -/
theorem wait_past_deadline_witness :
    WaitUntilRunning 8500 5 7 [EngineEvent.notFound]
      = (WaitResult.deadlineExceeded, 0) :=
  wait_past_deadline 8500 5 7 [EngineEvent.notFound] (by decide)

/-- Claim C7.  Scenario: the container is observed created, created,
then running with container port 8500 published at host port 32769;
the wait succeeds after three reloads and a subsequent call to
`GetEndpoint` returns localhost:32769. -/
theorem wait_scenario_endpoint :
    WaitUntilRunning 8500 10 0
        [EngineEvent.observed "created" [],
         EngineEvent.observed "created" [],
         EngineEvent.observed "running"
           [("8500/tcp", [⟨some "0.0.0.0", some "32769"⟩])]]
      = (WaitResult.ok "localhost:32769", 3) ∧
    GetEndpoint
        (endpointAfterWait
          (WaitUntilRunning 8500 10 0
            [EngineEvent.observed "created" [],
             EngineEvent.observed "created" [],
             EngineEvent.observed "running"
               [("8500/tcp", [⟨some "0.0.0.0", some "32769"⟩])]]).1
          none)
      = Except.ok "localhost:32769" :=
  ⟨by decide, by rfl⟩

/-- Claim C8.  Each of the three connection parameters that is present
in the engine configuration (nonzero timeout, nonempty base URL,
nonempty API version) is forwarded verbatim to the client constructor,
and each absent one is omitted so the adapter default applies. -/
theorem make_docker_client_forwards (config : LocalDockerConfig) :
    ((config.client_timeout_seconds ≠ 0 →
        (make_docker_client config).timeout
          = some config.client_timeout_seconds) ∧
     (config.client_timeout_seconds = 0 →
        (make_docker_client config).timeout = none)) ∧
    ((config.client_base_url ≠ "" →
        (make_docker_client config).base_url = some config.client_base_url) ∧
     (config.client_base_url = "" →
        (make_docker_client config).base_url = none)) ∧
    ((config.client_api_version ≠ "" →
        (make_docker_client config).version
          = some config.client_api_version) ∧
     (config.client_api_version = "" →
        (make_docker_client config).version = none)) := by
  refine ⟨⟨?_, ?_⟩, ⟨?_, ?_⟩, ⟨?_, ?_⟩⟩ <;> intro h <;>
    simp [make_docker_client, h]

/-- Claim C8, witness: a set timeout is forwarded; an unset base URL is
omitted. -/
theorem make_docker_client_forwards_witness :
    (make_docker_client ⟨30, "unix:", "1.40"⟩).timeout = some 30 ∧
    (make_docker_client ⟨0, "", ""⟩).base_url = none :=
  ⟨(make_docker_client_forwards ⟨30, "unix:", "1.40"⟩).1.1 (by decide),
   (make_docker_client_forwards ⟨0, "", ""⟩).2.1.2 (by decide)⟩

/-- Claim C9.  Port resolution fails exactly when the key is absent or
bound to an empty list; a first binding record that merely lacks the
host-port field does not fail: resolution returns the absent value, and
the wait loop then stores the endpoint localhost:None. -/
theorem find_host_port_none_hostport (ports : PortMap) (P : Nat)
    (m : HostBinding) (ms : List HostBinding)
    (deadline now : Nat) (rest : List EngineEvent)
    (h1 : lookupPorts ports (portKey P) = some (m :: ms))
    (h2 : m.hostPort = none) (h3 : now < deadline) :
    find_host_port ports P = Except.ok none ∧
    WaitUntilRunning P deadline now
        (EngineEvent.observed "running" ports :: rest)
      = (WaitResult.ok "localhost:None", 1) ∧
    ∀ (qs : PortMap) (q : Nat),
      (∃ v, find_host_port qs q = Except.ok v) ↔
        ∃ c cs, lookupPorts qs (portKey q) = some (c :: cs) := by
  have hf : find_host_port ports P = Except.ok none := by
    simp [find_host_port, h1, h2]
  refine ⟨hf, ?_, ?_⟩
  · simp [WaitUntilRunning, h3, hf, pyStr]
  · intro qs q
    rcases hl : lookupPorts qs (portKey q) with _ | bs
    · simp [find_host_port, hl]
    · cases bs with
      | nil => simp [find_host_port, hl]
      | cons c cs => simp [find_host_port, hl]

/-- Claim C9, witness: a binding record with a host IP but no host port
resolves to the absent value and yields the endpoint localhost:None. -/
theorem find_host_port_none_hostport_witness :
    find_host_port [("8500/tcp", [⟨some "0.0.0.0", none⟩])] 8500
      = Except.ok none ∧
    WaitUntilRunning 8500 10 0
        [EngineEvent.observed "running" [("8500/tcp", [⟨some "0.0.0.0", none⟩])]]
      = (WaitResult.ok "localhost:None", 1) :=
  ⟨(find_host_port_none_hostport [("8500/tcp", [⟨some "0.0.0.0", none⟩])] 8500
      ⟨some "0.0.0.0", none⟩ [] 10 0 [] (by decide) (by decide) (by decide)).1,
   (find_host_port_none_hostport [("8500/tcp", [⟨some "0.0.0.0", none⟩])] 8500
      ⟨some "0.0.0.0", none⟩ [] 10 0 [] (by decide) (by decide) (by decide)).2.1⟩

/-- Claim C10.  Every successful wait stores an endpoint whose host
part is the literal localhost, and the host IPs recorded in the
engine observations are ignored: rewriting every host IP in the trace
leaves the result, the endpoint and the reload count unchanged. -/
theorem wait_ok_localhost_ignores_hostip (containerPort deadline now : Nat)
    (trace : List EngineEvent) (ep : String) (n : Nat)
    (h : WaitUntilRunning containerPort deadline now trace
          = (WaitResult.ok ep, n)) :
    (∃ s, ep = "localhost:" ++ s) ∧
    ∀ ip, WaitUntilRunning containerPort deadline now
            (trace.map (setEventIp ip))
      = (WaitResult.ok ep, n) := by
  refine ⟨(wait_ok_ip_aux containerPort deadline none trace now ep n h).1, ?_⟩
  intro ip
  exact (wait_ok_ip_aux containerPort deadline ip trace now ep n h).2

/-- Claim C10, witness: replacing the recorded host IP by another one
leaves the successful endpoint localhost:32769 unchanged. -/
theorem wait_ok_localhost_ignores_hostip_witness :
    WaitUntilRunning 8500 10 0
        ([EngineEvent.observed "running"
            [("8500/tcp", [⟨some "0.0.0.0", some "32769"⟩])]].map
          (setEventIp (some "10.0.0.7")))
      = (WaitResult.ok "localhost:32769", 1) :=
  (wait_ok_localhost_ignores_hostip 8500 10 0
      [EngineEvent.observed "running"
        [("8500/tcp", [⟨some "0.0.0.0", some "32769"⟩])]]
      "localhost:32769" 1 (by decide)).2 (some "10.0.0.7")
